import Mathlib

/-! Verification development for the `ocflib` repository: a shallow
embedding of `ocflib/lab/hours.py` (lab opening hours with holiday
overrides) and `ocflib/printing/quota.py` (printing quotas and
append-only job/refund records), together with theorems about the
embedded operations.

Modelling conventions: a date is an integer number of days counted from
a fixed Monday, so `weekday d = (d % 7).toNat` matches Python's
`date.weekday()` convention (0 = Monday .. 6 = Sunday); a clock time is
the number of minutes after midnight (the YAML hour format `HH:MM` has
minute granularity); a `timedelta` is an integer number of minutes.
Python exceptions are modelled with `Except PyErr`.  `datetime.now()`
is an explicit `now : DateTime` argument to every operation whose
Python source may call it.  The YAML schedule file is not one of the
sources, so the already-loaded YAML document is an explicit `RawConfig`
argument to `_generate_regular_hours` and to every operation that
(re)loads it.  The unbounded `while` loop of `time_to_open` is modelled
with an explicit `fuel` iteration bound, `Except.ok none` marking that
the bound was exhausted with the loop still running. -/

/-- Python exceptions raised by the modelled code paths. -/
inductive PyErr
  | valueError
  | typeError
  | keyError
  | indexError
deriving DecidableEq

/-- Calendar date: days counted from a fixed Monday. -/
abbrev Date := Int

/-- Civil time of day, in minutes after midnight. -/
abbrev Time := Nat

/-- Duration in minutes (`datetime.timedelta`). -/
abbrev Timedelta := Int

/-- Python's `date.weekday()`: 0 = Monday .. 6 = Sunday. -/
def weekday (d : Date) : Nat := (d % 7).toNat

/-- Python's `date.strftime('%A')` (the weekday index is always 0..6). -/
def weekdayName (n : Nat) : String :=
  match n with
  | 0 => "Monday"
  | 1 => "Tuesday"
  | 2 => "Wednesday"
  | 3 => "Thursday"
  | 4 => "Friday"
  | 5 => "Saturday"
  | 6 => "Sunday"
  | _ => ""

/-- A `datetime.datetime` restricted to a date plus wall-clock minutes. -/
structure DateTime where
  date : Date
  time : Time
deriving DecidableEq

/-- Python `datetime` comparison `a < b` (lexicographic on date, time). -/
def DateTime.lt (a b : DateTime) : Bool :=
  a.date < b.date || (a.date == b.date && a.time < b.time)

/-- Subtraction `a - b` of two datetimes, as a duration in minutes. -/
def DateTime.sub (a b : DateTime) : Timedelta :=
  (a.date - b.date) * 1440 + (a.time : Int) - (b.time : Int)

/-- `datetime.combine(date, time)`. -/
def combine (d : Date) (t : Time) : DateTime := ⟨d, t⟩

/-- The `Days` enum of `hours.py` (`Monday = 0` .. `Sunday = 6`). -/
inductive Days
  | Monday
  | Tuesday
  | Wednesday
  | Thursday
  | Friday
  | Saturday
  | Sunday
deriving DecidableEq

/-- `Days(n)`: enum lookup by value; a non-member raises `ValueError`. -/
def Days.ofVal (n : Nat) : Except PyErr Days :=
  match n with
  | 0 => Except.ok Days.Monday
  | 1 => Except.ok Days.Tuesday
  | 2 => Except.ok Days.Wednesday
  | 3 => Except.ok Days.Thursday
  | 4 => Except.ok Days.Friday
  | 5 => Except.ok Days.Saturday
  | 6 => Except.ok Days.Sunday
  | _ => Except.error PyErr.valueError

/-- `Days[name]`: enum lookup by name; an unknown name raises `KeyError`. -/
def Days.ofName (s : String) : Except PyErr Days :=
  if s = "Monday" then Except.ok Days.Monday
  else if s = "Tuesday" then Except.ok Days.Tuesday
  else if s = "Wednesday" then Except.ok Days.Wednesday
  else if s = "Thursday" then Except.ok Days.Thursday
  else if s = "Friday" then Except.ok Days.Friday
  else if s = "Saturday" then Except.ok Days.Saturday
  else if s = "Sunday" then Except.ok Days.Sunday
  else Except.error PyErr.keyError

/-- The weekday enum member of a date, as a total function (a date's
`weekday()` is always 0..6, so `Days(d.weekday())` never raises; the
connection with `Days.ofVal` is the lemma `Days.ofVal_weekday`). -/
def weekdayEnum (d : Date) : Days :=
  match weekday d with
  | 0 => Days.Monday
  | 1 => Days.Tuesday
  | 2 => Days.Wednesday
  | 3 => Days.Thursday
  | 4 => Days.Friday
  | 5 => Days.Saturday
  | _ => Days.Sunday

/-- The `Hour` class of `hours.py`: an open/close pair of times.  The
Python attribute name `open` is a Lean keyword, hence `open'`. -/
structure Hour where
  open' : Time
  close : Time
deriving DecidableEq

/-- `Hour.__contains__` applied to a bare time value:
`self.open <= when < self.close` (half-open). -/
def Hour.containsTime (h : Hour) (t : Time) : Bool :=
  decide (h.open' ≤ t) && decide (t < h.close)

/-- `Hour.__contains__` applied to a datetime: the method first converts
`when` to `when.time()` and then applies the half-open test. -/
def Hour.containsDT (h : Hour) (w : DateTime) : Bool :=
  h.containsTime w.time

/-- String split helper: `splitCharAux sep rest acc` walks the remaining
characters accumulating the current (reversed) chunk. -/
def splitCharAux (sep : Char) : List Char → List Char → List String
  | [], acc => [String.mk acc.reverse]
  | c :: rest, acc =>
    if c == sep then String.mk acc.reverse :: splitCharAux sep rest []
    else splitCharAux sep rest (c :: acc)

/-- Python `str.split(sep)` for a one-character separator (the source
splits on `'-'` and, inside `strptime`, on `':'`). -/
def splitChar (sep : Char) (s : String) : List String :=
  splitCharAux sep s.data []

/-- Decimal digit-string parser used to model `strptime` field parsing:
accepts a non-empty all-digit string. -/
def parseNatAux : List Char → Nat → Option Nat
  | [], acc => some acc
  | c :: rest, acc =>
    if c.isDigit then parseNatAux rest (acc * 10 + (c.toNat - '0'.toNat))
    else none

/-- Parse a decimal numeral, `none` on the empty string or a non-digit. -/
def parseNat (s : String) : Option Nat :=
  match s.data with
  | [] => none
  | l => parseNatAux l 0

/-- The local `_parsetime(t)` helper of `_generate_regular_hours`:
`datetime.strptime(t, '%H:%M').time()`.  Modelled as: split on `':'`,
require exactly an hour field in 0..23 and a minute field in 0..59,
anything else raises `ValueError` as `strptime` does. -/
def _parsetime (t : String) : Except PyErr Time :=
  match splitChar ':' t with
  | [hs, ms] =>
    match parseNat hs, parseNat ms with
    | some hh, some mm =>
      if hh ≤ 23 ∧ mm ≤ 59 then Except.ok (hh * 60 + mm)
      else Except.error PyErr.valueError
    | _, _ => Except.error PyErr.valueError
  | _ => Except.error PyErr.valueError

/-- One `'HH:MM-HH:MM'` entry: `x = hour.split('-')` followed by
`Hour(open=_parsetime(x[0]), close=_parsetime(x[1]))`.  Python evaluates
`_parsetime(x[0])` before indexing `x[1]`, so a dash-less string raises
`ValueError` from the first field if that field is malformed, and
`IndexError` otherwise. -/
def parseHour (s : String) : Except PyErr Hour :=
  match splitChar '-' s with
  | [a] =>
    match _parsetime a with
    | Except.error e => Except.error e
    | Except.ok _ => Except.error PyErr.indexError
  | a :: b :: _ =>
    match _parsetime a with
    | Except.error e => Except.error e
    | Except.ok o =>
      match _parsetime b with
      | Except.error e => Except.error e
      | Except.ok c => Except.ok ⟨o, c⟩
  | [] => Except.error PyErr.indexError

/-- The inner `for hour in hours` loop: parse every interval string. -/
def parseHours : List String → Except PyErr (List Hour)
  | [] => Except.ok []
  | s :: rest =>
    match parseHour s with
    | Except.error e => Except.error e
    | Except.ok h =>
      match parseHours rest with
      | Except.error e => Except.error e
      | Except.ok t => Except.ok (h :: t)

/-- A parsed holiday tuple `(start, end, reason, hours)` as appended by
`_generate_regular_hours` (the `end` field is named `endDate` because
`end` is a Lean keyword). -/
structure Holiday where
  startDate : Date
  endDate : Date
  reason : String
  hours : List Hour
deriving DecidableEq

/-- A raw holiday entry of the YAML document: `start`, `end`, `reason`
and an `hours` list that may be null (`none`) or empty. -/
structure RawHoliday where
  startDate : Date
  endDate : Date
  reason : String
  hours : Option (List String)

/-- The loaded YAML document `raw_hours`: the `hours` mapping (day name
to interval strings, in mapping order) and the `holidays` list. -/
structure RawConfig where
  hours : List (String × List String)
  holidays : List RawHoliday

/-- The `for day, hours in raw_hours['hours'].items()` loop: parse each
day's interval strings, then look the day name up in the `Days` enum
(`Days[day]`), building the `regular_hours` dict as an association list
(YAML mapping keys are unique). -/
def buildRegular : List (String × List String) → Except PyErr (List (Days × List Hour))
  | [] => Except.ok []
  | (dayName, hrs) :: rest =>
    match parseHours hrs with
    | Except.error e => Except.error e
    | Except.ok i_hours =>
      match Days.ofName dayName with
      | Except.error e => Except.error e
      | Except.ok d =>
        match buildRegular rest with
        | Except.error e => Except.error e
        | Except.ok tail => Except.ok ((d, i_hours) :: tail)

/-- The `for data in raw_hours['holidays']` loop: `if data['hours']:`
skips parsing when the entry's hour list is null or empty. -/
def buildHolidays : List RawHoliday → Except PyErr (List Holiday)
  | [] => Except.ok []
  | rh :: rest =>
    match
      (match rh.hours with
       | none => Except.ok []
       | some [] => Except.ok []
       | some hs => parseHours hs) with
    | Except.error e => Except.error e
    | Except.ok i_hours =>
      match buildHolidays rest with
      | Except.error e => Except.error e
      | Except.ok tail =>
        Except.ok (⟨rh.startDate, rh.endDate, rh.reason, i_hours⟩ :: tail)

/-- `_generate_regular_hours()`: parse the YAML document into the
regular-hours dict and the holiday list.  Note that it performs no
completeness check over the seven weekdays. -/
def _generate_regular_hours (cfg : RawConfig) :
    Except PyErr (List (Days × List Hour) × List Holiday) :=
  match buildRegular cfg.hours with
  | Except.error e => Except.error e
  | Except.ok rh =>
    match buildHolidays cfg.holidays with
    | Except.error e => Except.error e
    | Except.ok hols => Except.ok (rh, hols)

/-- Dict lookup `regular_hours[Days(day.weekday())]` on the association
list built by `_generate_regular_hours`. -/
def lookupDays (rh : List (Days × List Hour)) (d : Days) : Option (List Hour) :=
  (rh.find? (fun p => decide (p.1 = d))).map Prod.snd

/-- The holiday range test `start <= day <= end` (inclusive). -/
def inRange (day : Date) (hol : Holiday) : Bool :=
  decide (hol.startDate ≤ day) && decide (day ≤ hol.endDate)

/-- The `Hours` namedtuple `(date, weekday, holiday, hours)`. -/
structure Hours where
  date : Date
  weekday : String
  holiday : Option String
  hours : List Hour
deriving DecidableEq

/-- `Hours.get_hours(day)` for an explicitly supplied date (the `day=None`
default, which substitutes `date.today()`, and the `datetime`-to-`date`
coercion are outside the model).  The weekly entry for the date's
weekday is looked up first (a missing weekday is a `KeyError` even if a
holiday matches), then the first holiday whose inclusive range contains
the date overrides both the hour list and the label. -/
def get_hours (cfg : RawConfig) (day : Date) : Except PyErr Hours :=
  match _generate_regular_hours cfg with
  | Except.error e => Except.error e
  | Except.ok (hours, holidays) =>
    match Days.ofVal (weekday day) with
    | Except.error e => Except.error e
    | Except.ok dayEnum =>
      match lookupDays hours dayEnum with
      | none => Except.error PyErr.keyError
      | some myDefault =>
        match holidays.find? (inRange day) with
        | some hol =>
          Except.ok ⟨day, weekdayName (weekday day), some hol.reason, hol.hours⟩
        | none =>
          Except.ok ⟨day, weekdayName (weekday day), none, myDefault⟩

/-- `Hours._validate_time(self, when)`.  A supplied `when` is a truthy
`datetime`, so the `if not when` branch fires exactly for `when=None`
(returning `datetime.now()`, the `now` argument) and the `isinstance`
check never raises here.  The source's condition is
`if not self.date != when.date()`, which raises exactly when the dates
are EQUAL; its success path has no `return`, so it returns `None`. -/
def Hours.validate_time (now : DateTime) (self : Hours) (when : Option DateTime) :
    Except PyErr (Option DateTime) :=
  match when with
  | none => Except.ok (some now)
  | some w =>
    if self.date = w.date then Except.error PyErr.valueError
    else Except.ok none

/-- `any(when in hour for hour in self.hours)`: Python's short-circuit
`any`; evaluating `None in hour` raises `TypeError` (the comparison
`self.open <= None` is ill-typed), reached iff the list is non-empty. -/
def anyContains : List Hour → Option DateTime → Except PyErr Bool
  | [], _ => Except.ok false
  | _ :: _, none => Except.error PyErr.typeError
  | h :: rest, some w =>
    if h.containsDT w then Except.ok true else anyContains rest (some w)

/-- `Hours.lab_is_open(self, when)`: validate/rebind `when`, then test
membership in any interval. -/
def Hours.lab_is_open (now : DateTime) (self : Hours) (when : Option DateTime) :
    Except PyErr Bool :=
  match self.validate_time now when with
  | Except.error e => Except.error e
  | Except.ok w => anyContains self.hours w

/-- The comprehension `[hour for hour in self.hours if when in hour]` of
`time_to_close`; evaluating `None in hour` raises `TypeError`. -/
def filterContains : List Hour → Option DateTime → Except PyErr (List Hour)
  | [], _ => Except.ok []
  | _ :: _, none => Except.error PyErr.typeError
  | h :: rest, some w =>
    match filterContains rest (some w) with
    | Except.error e => Except.error e
    | Except.ok tail => Except.ok (if h.containsDT w then h :: tail else tail)

/-- The body of `time_to_close` after the `when = self._validate_time(when)`
rebinding. -/
def time_to_close_body (self : Hours) (w : Option DateTime) : Except PyErr Timedelta :=
  match filterContains self.hours w with
  | Except.error e => Except.error e
  | Except.ok hrs =>
    match hrs with
    | [] => Except.ok 0
    | hr :: _ =>
      match w with
      | none => Except.error PyErr.typeError
      | some w' => Except.ok (DateTime.sub (combine self.date hr.close) w')

/-- `Hours.time_to_close(self, when)`: if `when` is inside an interval,
the duration to that interval's close, else the zero duration.  The
`none` arm of the final match models `datetime.combine(...) - None`,
which raises `TypeError` (it is unreachable because `filterContains`
already raises on a non-empty list with `w = None`). -/
def Hours.time_to_close (now : DateTime) (self : Hours) (when : Option DateTime) :
    Except PyErr Timedelta :=
  match self.validate_time now when with
  | Except.error e => Except.error e
  | Except.ok w => time_to_close_body self w

/-- The local `date_opens(date)` helper of `time_to_open`:
`[datetime.combine(date, h.open) for h in Hours.get_hours(date).hours]`
(`get_hours` reloads the configuration on every call). -/
def date_opens (cfg : RawConfig) (d : Date) : Except PyErr (List DateTime) :=
  match get_hours cfg d with
  | Except.error e => Except.error e
  | Except.ok h => Except.ok (h.hours.map (fun hr => combine d hr.open'))

/-- The comprehension `[o for o in opens if o > when]`; comparing a
`datetime` with `None` raises `TypeError`. -/
def filterGT : List DateTime → Option DateTime → Except PyErr (List DateTime)
  | [], _ => Except.ok []
  | _ :: _, none => Except.error PyErr.typeError
  | o :: rest, some w =>
    match filterGT rest (some w) with
    | Except.error e => Except.error e
    | Except.ok tail => Except.ok (if DateTime.lt w o then o :: tail else tail)

/-- The `while not opens:` loop of `time_to_open`: starting from the
current candidate list, advance one date at a time until `date_opens`
is non-empty.  The source has NO iteration bound; `fuel` bounds the
model's unrolling and `Except.ok none` means the bound was exhausted
with the loop still running (i.e. the Python loop is still spinning). -/
def open_search (cfg : RawConfig) : Date → List DateTime → Nat → Except PyErr (Option DateTime)
  | _, o :: _, _ => Except.ok (some o)
  | _, [], 0 => Except.ok none
  | d, [], fuel + 1 =>
    match date_opens cfg (d + 1) with
    | Except.error e => Except.error e
    | Except.ok next => open_search cfg (d + 1) next fuel

/-- The body of `time_to_open` after the `when = self._validate_time(when)`
rebinding: re-test `lab_is_open` with the rebound value, collect today's
remaining opens, then run the date search; `opens[0] - when` raises
`TypeError` when the rebound `when` is `None`. -/
def time_to_open_body (now : DateTime) (cfg : RawConfig) (self : Hours)
    (w : Option DateTime) (fuel : Nat) : Except PyErr (Option Timedelta) :=
  match Hours.lab_is_open now self w with
  | Except.error e => Except.error e
  | Except.ok true => Except.ok (some 0)
  | Except.ok false =>
    match date_opens cfg self.date with
    | Except.error e => Except.error e
    | Except.ok opens0 =>
      match filterGT opens0 w with
      | Except.error e => Except.error e
      | Except.ok opens =>
        match open_search cfg self.date opens fuel with
        | Except.error e => Except.error e
        | Except.ok none => Except.ok none
        | Except.ok (some o) =>
          match w with
          | none => Except.error PyErr.typeError
          | some w' => Except.ok (some (DateTime.sub o w'))

/-- `Hours.time_to_open(self, when)`: zero if open, otherwise the delay
until the earliest opening found by the unbounded day-by-day search. -/
def Hours.time_to_open (now : DateTime) (cfg : RawConfig) (self : Hours)
    (when : Option DateTime) (fuel : Nat) : Except PyErr (Option Timedelta) :=
  match self.validate_time now when with
  | Except.error e => Except.error e
  | Except.ok w => time_to_open_body now cfg self w fuel

/-- The `closed_all_day` property: `not self.hours`. -/
def Hours.closed_all_day (self : Hours) : Bool := self.hours.isEmpty

/-- Quota constants of `quota.py`. -/
def WEEKDAY_QUOTA : Int := 8

/-- Weekend daily page cap. -/
def WEEKEND_QUOTA : Int := 16

/-- Semesterly page cap. -/
def SEMESTERLY_QUOTA : Int := 100

/-- The `UserQuota` namedtuple. -/
structure UserQuota where
  user : String
  daily : Int
  semesterly : Int
deriving DecidableEq

/-- The row of the `printed` table returned for a user: cumulative pages
printed today and this semester. -/
structure Row where
  today : Int
  semester : Int
deriving DecidableEq

/-- `daily_quota(day)`: the weekend constant on Saturday/Sunday
(`day.weekday() in {5, 6}`), else the weekday constant.  The `day=None`
default (today) is modelled by passing the current date explicitly. -/
def daily_quota (day : Date) : Int :=
  if weekday day = 5 ∨ weekday day = 6 then WEEKEND_QUOTA else WEEKDAY_QUOTA

/-- `get_quota(c, user)`: the cursor is modelled by the single lookup it
performs — `fetch user` is the row of
`SELECT today, semester FROM printed WHERE user = %s` (`none` when
`fetchone()` finds no row) — and `today` is the current date consumed by
the internal `daily_quota()` call. -/
def get_quota (fetch : String → Option Row) (today : Date) (user : String) : UserQuota :=
  if user = "pubstaff" then ⟨"pubstaff", 500, 500⟩
  else
    let row := (fetch user).getD ⟨0, 0⟩
    let semesterly : Int := max 0 (SEMESTERLY_QUOTA - row.semester)
    ⟨user, max 0 (min semesterly (daily_quota today - row.today)), semesterly⟩

/-- A SQL parameter value (a namedtuple field value). -/
inductive Value
  | str (s : String)
  | int (n : Int)
  | dt (d : DateTime)
deriving DecidableEq

/-- The `Job` namedtuple of `quota.py`. -/
structure Job where
  user : String
  time : DateTime
  pages : Int
  queue : String
  printer : String
  doc_name : String
  filesize : Int
deriving DecidableEq

/-- `Job._fields`, in declaration order. -/
def Job.fieldNames : List String :=
  ["user", "time", "pages", "queue", "printer", "doc_name", "filesize"]

/-- `tuple(getattr(nt, column) for column in nt._fields)` for a `Job`. -/
def Job.fieldValues (j : Job) : List Value :=
  [Value.str j.user, Value.dt j.time, Value.int j.pages, Value.str j.queue,
   Value.str j.printer, Value.str j.doc_name, Value.int j.filesize]

/-- The `Refund` namedtuple of `quota.py`. -/
structure Refund where
  user : String
  time : DateTime
  pages : Int
  staffer : String
  reason : String
deriving DecidableEq

/-- `Refund._fields`, in declaration order. -/
def Refund.fieldNames : List String :=
  ["user", "time", "pages", "staffer", "reason"]

/-- `tuple(getattr(nt, column) for column in nt._fields)` for a `Refund`. -/
def Refund.fieldValues (r : Refund) : List Value :=
  [Value.str r.user, Value.dt r.time, Value.int r.pages, Value.str r.staffer,
   Value.str r.reason]

/-- `', '.join(parts)`. -/
def joinComma : List String → String
  | [] => ""
  | [x] => x
  | x :: rest => x ++ ", " ++ joinComma rest

/-- `query.format(...)` over the character list: each `\x7b\x7d`
placeholder consumes the next argument (running out of arguments raises
`IndexError`; surplus arguments are ignored, as in Python). -/
def formatChars : List Char → List String → Except PyErr String
  | [], _ => Except.ok ""
  | '\x7b' :: '\x7d' :: _, [] => Except.error PyErr.indexError
  | '\x7b' :: '\x7d' :: rest, a :: args =>
    match formatChars rest args with
    | Except.error e => Except.error e
    | Except.ok tail => Except.ok (a ++ tail)
  | ch :: rest, args =>
    match formatChars rest args with
    | Except.error e => Except.error e
    | Except.ok tail => Except.ok (String.mk [ch] ++ tail)

/-- Python `str.format` with positional `\x7b\x7d` placeholders. -/
def pyFormat (s : String) (args : List String) : Except PyErr String :=
  formatChars s.data args

/-- `_namedtuple_to_query(query, nt)`: fill the query's two placeholders
with the backquoted column list and the `%s` markers, and pair it with
the tuple of field values; the namedtuple is passed as its `_fields`
list and its value tuple. -/
def _namedtuple_to_query (query : String) (fieldNs : List String) (vals : List Value) :
    Except PyErr (String × List Value) :=
  match pyFormat query
      [joinComma (fieldNs.map (fun c => "`" ++ c ++ "`")),
       joinComma (fieldNs.map (fun _ => "%s"))] with
  | Except.error e => Except.error e
  | Except.ok q => Except.ok (q, vals)

/-- A database cursor, modelled by the list of statements it executed:
`execute(query, params)` appends the pair. -/
abbrev Cursor := List (String × List Value)

/-- `cursor.execute(query, params)`. -/
def execute (c : Cursor) (q : String) (ps : List Value) : Cursor := c ++ [(q, ps)]

/-- `add_job(c, job)`. -/
def add_job (c : Cursor) (j : Job) : Except PyErr Cursor :=
  match _namedtuple_to_query "INSERT INTO jobs (\x7b\x7d) VALUES (\x7b\x7d)"
      Job.fieldNames j.fieldValues with
  | Except.error e => Except.error e
  | Except.ok (q, ps) => Except.ok (execute c q ps)

/-- `add_refund(c, refund)`. -/
def add_refund (c : Cursor) (r : Refund) : Except PyErr Cursor :=
  match _namedtuple_to_query "INSERT INTO refunds (\x7b\x7d) VALUES (\x7b\x7d)"
      Refund.fieldNames r.fieldValues with
  | Except.error e => Except.error e
  | Except.ok (q, ps) => Except.ok (execute c q ps)

/-- Fixture: a weekly template listing all seven weekdays with no open
intervals at all, and no holidays. -/
def cfgEmpty : RawConfig :=
  ⟨[("Monday", []), ("Tuesday", []), ("Wednesday", []), ("Thursday", []),
    ("Friday", []), ("Saturday", []), ("Sunday", [])], []⟩

/-- Fixture: a weekly template open only on Mondays, 09:00-21:00. -/
def cfgMonday : RawConfig :=
  ⟨[("Monday", ["09:00-21:00"]), ("Tuesday", []), ("Wednesday", []),
    ("Thursday", []), ("Friday", []), ("Saturday", []), ("Sunday", [])], []⟩

/-- Fixture: a weekly template missing the `Sunday` key entirely. -/
def cfgNoSunday : RawConfig :=
  ⟨[("Monday", []), ("Tuesday", []), ("Wednesday", []), ("Thursday", []),
    ("Friday", []), ("Saturday", [])], []⟩

/-- The regular-hours dict parsed from `cfgNoSunday`. -/
def rhNoSunday : List (Days × List Hour) :=
  [(Days.Monday, []), (Days.Tuesday, []), (Days.Wednesday, []),
   (Days.Thursday, []), (Days.Friday, []), (Days.Saturday, [])]

/-- Fixture: every weekday open 09:00-21:00, plus a Christmas holiday
range (days 20..26) whose hour list is null, i.e. closed all day. -/
def cfgHoliday : RawConfig :=
  ⟨[("Monday", ["09:00-21:00"]), ("Tuesday", ["09:00-21:00"]),
    ("Wednesday", ["09:00-21:00"]), ("Thursday", ["09:00-21:00"]),
    ("Friday", ["09:00-21:00"]), ("Saturday", ["09:00-21:00"]),
    ("Sunday", ["09:00-21:00"])],
   [⟨20, 26, "Christmas", none⟩]⟩

/-- The regular-hours dict parsed from `cfgHoliday`. -/
def rhFull : List (Days × List Hour) :=
  [(Days.Monday, [⟨540, 1260⟩]), (Days.Tuesday, [⟨540, 1260⟩]),
   (Days.Wednesday, [⟨540, 1260⟩]), (Days.Thursday, [⟨540, 1260⟩]),
   (Days.Friday, [⟨540, 1260⟩]), (Days.Saturday, [⟨540, 1260⟩]),
   (Days.Sunday, [⟨540, 1260⟩])]

/-- The parsed Christmas holiday of `cfgHoliday`. -/
def holX : Holiday := ⟨20, 26, "Christmas", []⟩

/-- Fixture: an `Hours` value for day 0 (a Monday) with one interval. -/
def hoursMon : Hours := ⟨0, "Monday", none, [⟨540, 1260⟩]⟩

/-- Fixture: an `Hours` value for day 0 with no intervals. -/
def hoursEmpty : Hours := ⟨0, "Monday", none, []⟩

/-- Fixture: an `Hours` value for day 1 (a Tuesday) with no intervals. -/
def hoursTue : Hours := ⟨1, "Tuesday", none, []⟩

/-- Fixture: a reference current instant on day 100, 12:00 (a date far
from the other fixtures, so same-day validation does not fire). -/
def now0 : DateTime := ⟨100, 720⟩

/-- Fixture: current instant day 0, 21:40 (after Monday's close). -/
def nowC2 : DateTime := ⟨0, 1300⟩

/-- Fixture: the stored usage row of the specification's quota example
(3 pages today, 98 this semester). -/
def fetchEx : String → Option Row := fun _ => some ⟨3, 98⟩

/-- The regular-hours dict parsed from `cfgEmpty`. -/
def rhEmpty : List (Days × List Hour) :=
  [(Days.Monday, []), (Days.Tuesday, []), (Days.Wednesday, []),
   (Days.Thursday, []), (Days.Friday, []), (Days.Saturday, []),
   (Days.Sunday, [])]

/-- A date's weekday index is always strictly below 7. -/
theorem weekday_lt (d : Date) : weekday d < 7 := by
  unfold weekday
  have h1 : 0 ≤ d % 7 := Int.emod_nonneg d (by norm_num)
  have h2 : d % 7 < 7 := Int.emod_lt_of_pos d (by norm_num)
  omega

/-- `Days(d.weekday())` never raises, and produces `weekdayEnum d`. -/
theorem Days.ofVal_weekday (d : Date) :
    Days.ofVal (weekday d) = Except.ok (weekdayEnum d) := by
  have h7 : weekday d < 7 := weekday_lt d
  have h0 : weekday d = 0 ∨ weekday d = 1 ∨ weekday d = 2 ∨ weekday d = 3 ∨
      weekday d = 4 ∨ weekday d = 5 ∨ weekday d = 6 := by omega
  rcases h0 with h | h | h | h | h | h | h <;> simp [Days.ofVal, weekdayEnum, h]

/-- C1 (code bug): the spec says an explicit `when` whose date differs from
the `Hours`' date is rejected with `ValueError` and a same-date `when`
is accepted; the source's inverted condition
`if not self.date != when.date()` makes `lab_is_open`, `time_to_open`
and `time_to_close` raise `ValueError` exactly for a same-date `when`
(here 10:00 on the `Hours`' own day 0) while a different-date `when`
falls through and is accepted (returning `None`). -/
theorem c1_code_bug :
    Hours.validate_time now0 hoursMon (some ⟨0, 600⟩) = Except.error PyErr.valueError ∧
    Hours.lab_is_open now0 hoursMon (some ⟨0, 600⟩) = Except.error PyErr.valueError ∧
    Hours.time_to_close now0 hoursMon (some ⟨0, 600⟩) = Except.error PyErr.valueError ∧
    Hours.time_to_open now0 cfgMonday hoursMon (some ⟨0, 600⟩) 5 = Except.error PyErr.valueError ∧
    Hours.validate_time now0 hoursMon (some ⟨1, 600⟩) = Except.ok none :=
  ⟨rfl, rfl, rfl, rfl, rfl⟩

/-- C8 (code bug): for `when` = 10:00 on the `Hours`' own date, a time
inside the 09:00-21:00 interval, the claim expects `time_to_open` to
return the zero duration and `lab_is_open` to return true; instead both
raise `ValueError` from the inverted same-day check, so the
zero-iff-open law cannot hold for any explicit same-date `when`. -/
theorem c8_code_bug :
    Hour.containsDT ⟨540, 1260⟩ ⟨0, 600⟩ = true ∧
    Hours.lab_is_open now0 hoursMon (some ⟨0, 600⟩) = Except.error PyErr.valueError ∧
    Hours.time_to_open now0 cfgMonday hoursMon (some ⟨0, 600⟩) 5 = Except.error PyErr.valueError :=
  ⟨rfl, rfl, rfl⟩

/-- C9 (code bug): the half-open membership law does hold for the raw
`Hour.__contains__` test (true at the open time 09:00, false at the
close time 21:00), but `lab_is_open` itself, with a `when` equal to
either instant on the `Hours`' own date, raises `ValueError` from the
inverted same-day check, so the claimed `lab_is_open` behaviour is
unreachable. -/
theorem c9_code_bug :
    Hour.containsTime ⟨540, 1260⟩ 540 = true ∧
    Hour.containsTime ⟨540, 1260⟩ 1260 = false ∧
    Hours.lab_is_open now0 hoursMon (some ⟨0, 540⟩) = Except.error PyErr.valueError ∧
    Hours.lab_is_open now0 hoursMon (some ⟨0, 1260⟩) = Except.error PyErr.valueError :=
  ⟨rfl, rfl, rfl, rfl⟩

/-- C6: for every non-`pubstaff` user, `get_quota` returns
`semesterly = max 0 (SEMESTERLY_QUOTA - semester_used)` and
`daily = max 0 (min semesterly (daily_quota today - today_used))`, the
stored pair defaulting to `(0, 0)` when no row exists. -/
theorem c6_get_quota_formula (fetch : String → Option Row) (today : Date) (user : String)
    (hne : user ≠ "pubstaff") :
    get_quota fetch today user =
      ⟨user,
       max 0 (min (max 0 (SEMESTERLY_QUOTA - ((fetch user).getD ⟨0, 0⟩).semester))
         (daily_quota today - ((fetch user).getD ⟨0, 0⟩).today)),
       max 0 (SEMESTERLY_QUOTA - ((fetch user).getD ⟨0, 0⟩).semester)⟩ := by
  unfold get_quota
  rw [if_neg hne]

/-- C6 witness: the spec's example — 3 pages printed today, 98 this
semester, on a weekday (cap 8, semester cap 100) — yields remaining
semesterly = 2 and daily = 2. -/
theorem c6_witness :
    ("alice" : String) ≠ "pubstaff" ∧ get_quota fetchEx 0 "alice" = ⟨"alice", 2, 2⟩ := by
  refine ⟨by decide, ?_⟩
  rw [c6_get_quota_formula fetchEx 0 "alice" (by decide)]
  decide

/-- C7: every `UserQuota` returned by `get_quota` has a non-negative
daily and semesterly remainder, and daily never exceeds semesterly. -/
theorem c7_quota_invariant (fetch : String → Option Row) (today : Date) (user : String) :
    0 ≤ (get_quota fetch today user).daily ∧
    0 ≤ (get_quota fetch today user).semesterly ∧
    (get_quota fetch today user).daily ≤ (get_quota fetch today user).semesterly := by
  unfold get_quota
  by_cases hu : user = "pubstaff"
  · rw [if_pos hu]
    exact ⟨by decide, by decide, by decide⟩
  · rw [if_neg hu]
    exact ⟨le_max_left 0 _, le_max_left 0 _,
      max_le (le_max_left 0 _) (min_le_left _ _)⟩

/-- C10: `add_job` appends exactly one parametrized INSERT whose column
list is `Job._fields` in declared order and whose parameter tuple is the
job's field values in the same order, with no other transformation;
`add_refund` does the same into the refunds table. -/
theorem c10_insert_exact (c : Cursor) (j : Job) (r : Refund) :
    add_job c j =
      Except.ok (c ++
        [("INSERT INTO jobs (`user`, `time`, `pages`, `queue`, `printer`, `doc_name`, `filesize`) VALUES (%s, %s, %s, %s, %s, %s, %s)",
          Job.fieldValues j)]) ∧
    add_refund c r =
      Except.ok (c ++
        [("INSERT INTO refunds (`user`, `time`, `pages`, `staffer`, `reason`) VALUES (%s, %s, %s, %s, %s)",
          Refund.fieldValues r)]) :=
  ⟨rfl, rfl⟩

/-- C3: an explicitly supplied `when` that `_validate_time` does not
reject makes `_validate_time` return `None` (its success path has no
return statement), so `lab_is_open` and `time_to_close` rebind `when`
to `None` and reach the ill-typed membership comparison against `None`
(a `TypeError`, since the hour list is non-empty), `time_to_open`'s
result is likewise independent of which accepted instant was supplied,
and only a call that omits `when` obtains a usable instant
(`datetime.now()`). -/
theorem c3_validate_rebinds_none (now : DateTime) (h : Hours) (w w' : DateTime)
    (cfg : RawConfig) (fuel : Nat) (hne : h.date ≠ w.date) (hne' : h.date ≠ w'.date)
    (hnonempty : h.hours ≠ []) :
    Hours.validate_time now h (some w) = Except.ok none ∧
    Hours.lab_is_open now h (some w) = Except.error PyErr.typeError ∧
    Hours.time_to_close now h (some w) = Except.error PyErr.typeError ∧
    Hours.time_to_open now cfg h (some w) fuel = Hours.time_to_open now cfg h (some w') fuel ∧
    Hours.validate_time now h none = Except.ok (some now) := by
  have hv : Hours.validate_time now h (some w) = Except.ok none := by
    show (if h.date = w.date then Except.error PyErr.valueError else Except.ok none) =
      Except.ok none
    rw [if_neg hne]
  have hv' : Hours.validate_time now h (some w') = Except.ok none := by
    show (if h.date = w'.date then Except.error PyErr.valueError else Except.ok none) =
      Except.ok none
    rw [if_neg hne']
  obtain ⟨hd, tl, hht⟩ : ∃ hd tl, h.hours = hd :: tl := by
    cases hh : h.hours with
    | nil => exact absurd hh hnonempty
    | cons a b => exact ⟨a, b, rfl⟩
  refine ⟨hv, ?_, ?_, ?_, rfl⟩
  · unfold Hours.lab_is_open
    rw [hv]
    show anyContains h.hours none = Except.error PyErr.typeError
    rw [hht]
    rfl
  · unfold Hours.time_to_close
    rw [hv]
    show time_to_close_body h none = Except.error PyErr.typeError
    unfold time_to_close_body
    rw [hht]
    rfl
  · unfold Hours.time_to_open
    rw [hv, hv']

/-- C3 witness: concrete instances of the rebinding behaviour, at two
accepted (different-date) instants against the Monday fixture. -/
theorem c3_witness :
    (hoursMon.date ≠ (⟨1, 600⟩ : DateTime).date ∧
     hoursMon.date ≠ (⟨2, 600⟩ : DateTime).date ∧
     hoursMon.hours ≠ []) ∧
    (Hours.validate_time now0 hoursMon (some ⟨1, 600⟩) = Except.ok none ∧
     Hours.lab_is_open now0 hoursMon (some ⟨1, 600⟩) = Except.error PyErr.typeError ∧
     Hours.time_to_close now0 hoursMon (some ⟨1, 600⟩) = Except.error PyErr.typeError ∧
     Hours.time_to_open now0 cfgMonday hoursMon (some ⟨1, 600⟩) 5 =
       Hours.time_to_open now0 cfgMonday hoursMon (some ⟨2, 600⟩) 5 ∧
     Hours.validate_time now0 hoursMon none = Except.ok (some now0)) :=
  ⟨⟨by decide, by decide, by decide⟩,
   c3_validate_rebinds_none now0 hoursMon ⟨1, 600⟩ ⟨2, 600⟩ cfgMonday 5
     (by decide) (by decide) (by decide)⟩

/-- C4 (counterexample): loading a weekly template that is missing
`Sunday` succeeds — `_generate_regular_hours` performs no
weekday-completeness validation, so nothing fails "immediately at load
time" — and after that successful load `get_hours` still succeeds on a
Monday but fails with `KeyError` on a Sunday (day 6), contradicting both
halves of the claim. -/
theorem c4_counterexample :
    _generate_regular_hours cfgNoSunday = Except.ok (rhNoSunday, []) ∧
    get_hours cfgNoSunday 0 = Except.ok ⟨0, "Monday", none, []⟩ ∧
    get_hours cfgNoSunday 6 = Except.error PyErr.keyError :=
  ⟨rfl, rfl, rfl⟩

/-- C4 (amended): the loader performs no weekday-completeness check; a
missing weekday surfaces only at resolution time, as a `KeyError` from
`get_hours` on any date whose weekday is absent from the parsed weekly
template, even though the load itself succeeded. -/
theorem c4_amended (cfg : RawConfig) (d : Date) (rh : List (Days × List Hour))
    (hols : List Holiday)
    (hload : _generate_regular_hours cfg = Except.ok (rh, hols))
    (hmiss : lookupDays rh (weekdayEnum d) = none) :
    get_hours cfg d = Except.error PyErr.keyError := by
  simp only [get_hours, hload, Days.ofVal_weekday, hmiss]

/-- C4 witness: the amended claim at the concrete no-Sunday template. -/
theorem c4_witness :
    lookupDays rhNoSunday (weekdayEnum 6) = none ∧
    get_hours cfgNoSunday 6 = Except.error PyErr.keyError :=
  ⟨rfl, c4_amended cfgNoSunday 6 rhNoSunday [] rfl rfl⟩

/-- C5: whenever `get_hours` succeeds, the resulting `Hours` carries the
requested date; the first holiday (in configured list order) whose
inclusive range contains the date overrides both the interval list and
the label, the weekly template entry for the date's weekday being the
default when no holiday matches; and a matching holiday with an empty
interval list makes `closed_all_day` true regardless of weekday. -/
theorem c5_holiday_override (cfg : RawConfig) (d : Date) (rh : List (Days × List Hour))
    (hols : List Holiday) (h : Hours)
    (hload : _generate_regular_hours cfg = Except.ok (rh, hols))
    (hok : get_hours cfg d = Except.ok h) :
    h.date = d ∧
    (match hols.find? (inRange d) with
     | some hol => h.holiday = some hol.reason ∧ h.hours = hol.hours
     | none => h.holiday = none ∧ lookupDays rh (weekdayEnum d) = some h.hours) ∧
    ((hols.find? (inRange d)).map Holiday.hours = some [] → h.closed_all_day = true) := by
  simp only [get_hours, hload, Days.ofVal_weekday] at hok
  cases hl : lookupDays rh (weekdayEnum d) with
  | none =>
    simp only [hl] at hok
    exact (Except.noConfusion hok)
  | some myDefault =>
    simp only [hl] at hok
    cases hf : hols.find? (inRange d) with
    | some hol =>
      simp only [hf] at hok
      injection hok with hok2
      subst hok2
      refine ⟨rfl, ?_, ?_⟩
      · simp [hf]
      · simp only [hf, Option.map_some']
        intro heq
        injection heq with heq2
        simp [Hours.closed_all_day, heq2]
    | none =>
      simp only [hf] at hok
      injection hok with hok2
      subst hok2
      refine ⟨rfl, ?_, ?_⟩
      · simp [hf, hl]
      · simp only [hf, Option.map_none']
        intro heq
        exact Option.noConfusion heq

/-- C5 witness: resolving day 25 (a Friday) under a template open every
day, with a Christmas holiday range (days 20..26) carrying no hours,
returns the holiday label and an empty interval list, and
`closed_all_day` is true. -/
theorem c5_witness :
    (_generate_regular_hours cfgHoliday = Except.ok (rhFull, [holX]) ∧
     get_hours cfgHoliday 25 = Except.ok ⟨25, "Friday", some "Christmas", []⟩) ∧
    ((⟨25, "Friday", some "Christmas", []⟩ : Hours).date = 25 ∧
     ((⟨25, "Friday", some "Christmas", []⟩ : Hours).holiday = some "Christmas" ∧
      (⟨25, "Friday", some "Christmas", []⟩ : Hours).hours = ([] : List Hour)) ∧
     (some ([] : List Hour) = some [] →
      Hours.closed_all_day ⟨25, "Friday", some "Christmas", []⟩ = true)) :=
  ⟨⟨rfl, rfl⟩,
   c5_holiday_override cfgHoliday 25 rhFull [holX] ⟨25, "Friday", some "Christmas", []⟩
     rfl rfl⟩

/-- On the all-empty template, `get_hours` succeeds on every date, with
an empty interval list. -/
theorem get_hours_cfgEmpty (d : Date) :
    get_hours cfgEmpty d = Except.ok ⟨d, weekdayName (weekday d), none, []⟩ := by
  have hload : _generate_regular_hours cfgEmpty = Except.ok (rhEmpty, []) := rfl
  have hlk : lookupDays rhEmpty (weekdayEnum d) = some [] := by
    cases hdy : weekdayEnum d <;> rfl
  simp only [get_hours, hload, Days.ofVal_weekday, hlk, List.find?]

/-- On the all-empty template, `date_opens` is empty for every date. -/
theorem date_opens_cfgEmpty (d : Date) : date_opens cfgEmpty d = Except.ok [] := by
  unfold date_opens
  rw [get_hours_cfgEmpty]
  rfl

/-- On the all-empty template the date search never finds an opening:
for every iteration bound the loop is still running. -/
theorem open_search_cfgEmpty (d : Date) (fuel : Nat) :
    open_search cfgEmpty d [] fuel = Except.ok none := by
  induction fuel generalizing d with
  | zero => rfl
  | succ n ih =>
    show (match date_opens cfgEmpty (d + 1) with
          | Except.error e => Except.error e
          | Except.ok next => open_search cfgEmpty (d + 1) next n) = Except.ok none
    rw [date_opens_cfgEmpty]
    exact ih (d + 1)

/-- On the all-empty template, `time_to_open` neither returns nor raises
for any iteration bound: the `while` loop runs forever. -/
theorem tto_cfgEmpty (fuel : Nat) :
    Hours.time_to_open now0 cfgEmpty hoursEmpty none fuel = Except.ok none := by
  show (match open_search cfgEmpty 0 [] fuel with
        | Except.error e => Except.error e
        | Except.ok none => Except.ok none
        | Except.ok (some o) => Except.ok (some (DateTime.sub o now0))) = Except.ok none
  rw [open_search_cfgEmpty]

/-- C2 (counterexample): under a configuration with no open interval on
any date, `time_to_open`, called while closed, exhibits no bounded
lookahead: after 366 further dates the loop is still running and no
error of any kind has been raised — the source defines no
`SearchExhausted` and no maximum lookahead. -/
theorem c2_counterexample :
    Hours.time_to_open now0 cfgEmpty hoursEmpty none 366 = Except.ok none :=
  tto_cfgEmpty 366

/-- C2 (amended): the day-by-day search of `time_to_open` is unbounded:
when no later opening exists it never terminates (for every finite
iteration bound the loop is still running, with no error raised), and
when a later date has an opening the loop terminates and returns the
duration to that date's first opening (here: from Monday 21:40,
resolving a Tuesday with no hours, to the next Monday 09:00, i.e. 9320
minutes). -/
theorem c2_amended :
    (∀ fuel : Nat,
      Hours.time_to_open now0 cfgEmpty hoursEmpty none fuel = Except.ok none) ∧
    Hours.time_to_open nowC2 cfgMonday hoursTue none 10 = Except.ok (some 9320) :=
  ⟨tto_cfgEmpty, rfl⟩
